import Mathlib

/-!
Verification development for the LanceDB MCP server (`src/index.ts`).

The server exposes three tools (`vector_add`, `vector_search`, `list_tables`)
over a request/response protocol.  The handlers validate arguments with zod
schemas and delegate storage and embedding work to external collaborators
(the LanceDB connection and the Ollama embeddings endpoint).  We embed the
handler logic shallowly: JSON values are an inductive type, records are
association lists, and the external collaborators (table open/create/add,
similarity search, text embedding) appear either as explicit model functions
or as oracle parameters of the handler functions.  Handlers are instrumented
to record which collaborator calls they perform, so that claims about "the
embedding collaborator is invoked exactly once" or "no store operation is
performed" become statements about the recorded call lists.
-/

set_option autoImplicit false

namespace LanceMcp

/-- JSON values, the argument language of the protocol.  Numbers are modelled
as rationals (the handler never computes with them, it only passes them on). -/
inductive Json where
  | null : Json
  | bool : Bool → Json
  | num : Rat → Json
  | str : String → Json
  | arr : List Json → Json
  | obj : List (String × Json) → Json

/-- A record, as LanceDB sees it: a JS object, i.e. a field-name/value map. -/
abbrev RecordT := List (String × Json)

/-- The three distance metrics accepted by `VectorSearchArgsSchema`. -/
inductive DistanceType where
  | l2 : DistanceType
  | cosine : DistanceType
  | dot : DistanceType
deriving DecidableEq

/-- One field of an Arrow schema, as inspected by the search handler:
`field.type.typeId` and `field.type.listSize` (0 for non-list types). -/
structure Field where
  name : String
  typeId : Nat
  listSize : Nat
deriving DecidableEq

/-- Modelled from the spec: a table of the external store is a schema
(inferred from the first batch of rows) plus the stored rows. -/
structure Table where
  fields : List Field
  rows : List RecordT

/-- Modelled from the spec: the store is a named collection of tables.
An association list with leftmost-binding-wins lookup. -/
abbrev Store := List (String × Table)

/-- A protocol response: the text content and the `isError` flag. -/
structure Response where
  text : String
  isError : Bool
deriving DecidableEq

/-! ### Substring containment

`(error as Error).message.includes("does not exist")` in the add handler is a
substring test; we model `String.includes` on the underlying character lists. -/

/-- `listContains s pat` is true iff `pat` occurs contiguously inside `s`. -/
def listContains : List Char → List Char → Bool
  | _, [] => true
  | [], _ :: _ => false
  | c :: cs, p :: ps => (p :: ps).isPrefixOf (c :: cs) || listContains cs (p :: ps)

/-- JS `String.prototype.includes`. -/
def containsSub (s pat : String) : Bool :=
  listContains s.toList pat.toList

/-! ### Argument validation (the zod schemas)

`VectorAddArgsSchema` and `VectorSearchArgsSchema` from `src/index.ts`.
`safeParse` is modelled as an `Except String` computation; the precise zod
error text is irrelevant to the handlers (they interpolate it into a message
that starts with `Invalid arguments for <tool>:`), so parse errors carry
short descriptive strings. -/

/-- Arguments of `vector_add` after validation. -/
structure AddArgs where
  table_name : String
  vectors : List RecordT

/-- Arguments of `vector_search` after validation. -/
structure SearchArgs where
  table_name : String
  query_vector : Option (List Rat)
  query_text : Option String
  limit : Option Rat
  distance_type : Option DistanceType
  whereFilter : Option String
  with_vectors : Option Bool
deriving DecidableEq

/-- Is a JSON value a number?  (`z.number()` element check.) -/
def Json.isNum : Json → Bool
  | Json.num _ => true
  | _ => false

/-- `z.object({...}).passthrough()` element schema of `vectors`: the value must
be an object whose `vector` field is an array of numbers; all other fields
pass through unchanged. -/
def parseRecord (j : Json) : Except String RecordT :=
  match j with
  | Json.obj fields =>
    match fields.lookup "vector" with
    | some (Json.arr xs) =>
      if xs.all Json.isNum then Except.ok fields
      else Except.error "vector: Expected number array"
    | some _ => Except.error "vector: Expected array"
    | none => Except.error "vector: Required"
  | _ => Except.error "Expected object"

/-- Parse each element of the `vectors` array. -/
def parseRecords : List Json → Except String (List RecordT)
  | [] => Except.ok []
  | j :: js =>
    match parseRecord j, parseRecords js with
    | Except.ok r, Except.ok rs => Except.ok (r :: rs)
    | Except.error e, _ => Except.error e
    | _, Except.error e => Except.error e

/-- `VectorAddArgsSchema.safeParse`. -/
def parseVectorAddArgs (j : Json) : Except String AddArgs :=
  match j with
  | Json.obj o =>
    match o.lookup "table_name" with
    | some (Json.str tn) =>
      (match o.lookup "vectors" with
       | some (Json.arr items) =>
         (match parseRecords items with
          | Except.ok rs => Except.ok ⟨tn, rs⟩
          | Except.error e => Except.error e)
       | some _ => Except.error "vectors: Expected array"
       | none => Except.error "vectors: Required")
    | some _ => Except.error "table_name: Expected string"
    | none => Except.error "table_name: Required"
  | _ => Except.error "Expected object"

/-- Optional field `query_vector : z.array(z.number()).optional()`. -/
def optNumArray (o : RecordT) (key : String) : Except String (Option (List Rat)) :=
  match o.lookup key with
  | none => Except.ok none
  | some (Json.arr xs) =>
    (match (xs.mapM fun x => match x with | Json.num q => some q | _ => none) with
     | some qs => Except.ok (some qs)
     | none => Except.error (key ++ ": Expected number array")
     : Except String (Option (List Rat)))
  | some _ => Except.error (key ++ ": Expected array")

/-- Optional field of type `z.string().optional()`. -/
def optString (o : RecordT) (key : String) : Except String (Option String) :=
  match o.lookup key with
  | none => Except.ok none
  | some (Json.str s) => Except.ok (some s)
  | some _ => Except.error (key ++ ": Expected string")

/-- Optional field of type `z.number().optional()`. -/
def optNumber (o : RecordT) (key : String) : Except String (Option Rat) :=
  match o.lookup key with
  | none => Except.ok none
  | some (Json.num q) => Except.ok (some q)
  | some _ => Except.error (key ++ ": Expected number")

/-- Optional field of type `z.boolean().optional()`. -/
def optBool (o : RecordT) (key : String) : Except String (Option Bool) :=
  match o.lookup key with
  | none => Except.ok none
  | some (Json.bool b) => Except.ok (some b)
  | some _ => Except.error (key ++ ": Expected boolean")

/-- Optional field `distance_type : z.enum(['l2','cosine','dot']).optional()`. -/
def optDistance (o : RecordT) (key : String) : Except String (Option DistanceType) :=
  match o.lookup key with
  | none => Except.ok none
  | some (Json.str "l2") => Except.ok (some DistanceType.l2)
  | some (Json.str "cosine") => Except.ok (some DistanceType.cosine)
  | some (Json.str "dot") => Except.ok (some DistanceType.dot)
  | some _ => Except.error (key ++ ": Invalid enum value")

/-- `VectorSearchArgsSchema.safeParse`: all fields are checked against their
shapes, and the `.refine` that requires
`query_vector !== undefined || query_text !== undefined` runs on success. -/
def parseVectorSearchArgs (j : Json) : Except String SearchArgs :=
  match j with
  | Json.obj o =>
    (match o.lookup "table_name" with
     | some (Json.str tn) =>
       (match optNumArray o "query_vector", optString o "query_text",
              optNumber o "limit", optDistance o "distance_type",
              optString o "where", optBool o "with_vectors" with
        | Except.ok qv, Except.ok qt, Except.ok lim, Except.ok dt,
          Except.ok wh, Except.ok wv =>
          if qv.isSome || qt.isSome then
            Except.ok ⟨tn, qv, qt, lim, dt, wh, wv⟩
          else
            Except.error "Either query_vector or query_text must be provided"
        | Except.error e, _, _, _, _, _ => Except.error e
        | _, Except.error e, _, _, _, _ => Except.error e
        | _, _, Except.error e, _, _, _ => Except.error e
        | _, _, _, Except.error e, _, _ => Except.error e
        | _, _, _, _, Except.error e, _ => Except.error e
        | _, _, _, _, _, Except.error e => Except.error e)
     | some _ => Except.error "table_name: Expected string"
     | none => Except.error "table_name: Required")
  | _ => Except.error "Expected object"

/-! ### The external store (modelled collaborator) -/

/-- Modelled from the spec: when a table is created from a first batch of
records, the store infers the schema from the first record; a numeric-array
field becomes a fixed-size-list column (Arrow type tag 16) whose list size is
the array length, any other field becomes a scalar column (tag 3, size 0). -/
def inferField (kv : String × Json) : Field :=
  match kv.2 with
  | Json.arr xs => ⟨kv.1, 16, xs.length⟩
  | _ => ⟨kv.1, 3, 0⟩

/-- Modelled from the spec: schema inference from the first batch of rows. -/
def inferSchema (rows : List RecordT) : List Field :=
  match rows with
  | [] => []
  | r :: _ => r.map inferField

/-- Modelled from the spec: `db.openTable` resolves an existing table and
rejects a missing one with an error whose message says the table
does not exist. -/
def dbOpenTable (db : Store) (name : String) : Except String Table :=
  match db.lookup name with
  | some t => Except.ok t
  | none => Except.error (("Table " ++ name ++ " ") ++ "does not exist")

/-- Modelled from the spec: `db.createTable name rows` builds a table holding
exactly the submitted records, with the inferred schema. -/
def dbCreateTable (rows : List RecordT) : Table :=
  ⟨inferSchema rows, rows⟩

/-- Bind `name` to `t` in the store (leftmost binding wins on lookup). -/
def storeSet (db : Store) (name : String) (t : Table) : Store :=
  (name, t) :: db

/-! ### The `vector_add` handler -/

/-- The try/catch body of `case "vector_add"`: open the table and append; if
the open failed with a message containing `"does not exist"`, create the
table from the records instead; any other error is rethrown.  The result is
the table to (re)bind under `table_name` plus the success response, or the
propagated error. -/
def vectorAddGo (openResult : Except String Table) (table_name : String)
    (vectors : List RecordT) : Except String (Table × Response) :=
  match openResult with
  | Except.ok t =>
    Except.ok ({ t with rows := t.rows ++ vectors },
      ⟨"Added " ++ toString vectors.length ++ " vectors to table " ++ table_name, false⟩)
  | Except.error e =>
    if containsSub e "does not exist" then
      Except.ok (dbCreateTable vectors,
        ⟨"Created table " ++ table_name ++ " and added " ++
          toString vectors.length ++ " vectors", false⟩)
    else
      Except.error e

/-- `vector_add` with the open outcome supplied as an oracle (so that claims
about arbitrary open errors are statable); a propagated error reaches the
top-level catch, which turns it into an error-flagged `Error: <msg>`
response and leaves the store untouched. -/
def vectorAddWith (db : Store) (openResult : Except String Table) (a : AddArgs) :
    Store × Response :=
  match vectorAddGo openResult a.table_name a.vectors with
  | Except.ok (t, r) => (storeSet db a.table_name t, r)
  | Except.error e => (db, ⟨"Error: " ++ e, true⟩)

/-- `vector_add` against the model store: the open outcome is computed by
`dbOpenTable`. -/
def vectorAddHandler (db : Store) (a : AddArgs) : Store × Response :=
  vectorAddWith db (dbOpenTable db a.table_name) a

/-- The full `vector_add` tool call: validation first; a `safeParse` failure
throws `Invalid arguments for vector_add: ...`, which the top-level catch
converts into an error response. -/
def callVectorAdd (db : Store) (j : Json) : Store × Response :=
  match parseVectorAddArgs j with
  | Except.error e => (db, ⟨"Error: Invalid arguments for vector_add: " ++ e, true⟩)
  | Except.ok a => vectorAddHandler db a

/-! ### The `vector_search` handler -/

/-- The vector-column heuristic of the search handler:
`schema.fields.find(field => field.type.typeId === 16 && field.type.listSize > 10)`. -/
def findVectorField (t : Table) : Option Field :=
  t.fields.find? fun f => f.typeId == 16 && decide (10 < f.listSize)

/-- Modelled collaborator output: `JSON.stringify` of a JSON value
(rendered without indentation; the handlers never inspect this text). -/
def renderJson : Json → String
  | Json.null => "null"
  | Json.bool b => cond b "true" "false"
  | Json.num q => toString q
  | Json.str s => "\x22" ++ s ++ "\x22"
  | Json.arr xs => "[" ++ String.intercalate "," (xs.attach.map fun x => renderJson x.1) ++ "]"
  | Json.obj fs => "\x7b" ++
      String.intercalate ","
        (fs.attach.map fun kv => "\x22" ++ kv.1.1 ++ "\x22:" ++ renderJson kv.1.2) ++ "\x7d"
decreasing_by
  all_goals simp_wf
  · have h := List.sizeOf_lt_of_mem x.2
    omega
  · have h := List.sizeOf_lt_of_mem kv.2
    obtain ⟨⟨k, v⟩, hmem⟩ := kv
    simp at h ⊢
    omega

/-- `JSON.stringify` of an array of records. -/
def renderResults (rs : List RecordT) : String :=
  renderJson (Json.arr (rs.map Json.obj))

/-- One call to the store's similarity search, as issued by the handler:
`table.vectorSearch(searchVector).distanceType(distance_type).limit(limit)`,
optionally `.where(where)`. -/
structure SearchCall where
  vector : List Rat
  distance : DistanceType
  limit : Rat
  whereFilter : Option String
deriving DecidableEq

/-- The observable outcome of one `vector_search` tool call: the response plus
instrumentation recording the collaborator interactions (whether the table
open was attempted, each text sent to the embedding endpoint, each similarity
search issued), the dimension-mismatch warning, the located vector column,
and the post-processed result records. -/
structure SearchOutcome where
  response : Response
  tableOpened : Bool
  embedCalls : List String
  searchCalls : List SearchCall
  dimWarning : Bool
  vectorColumn : Option String
  processedResults : Option (List RecordT)

/-- An error thrown inside the search handler's try block is caught by the
inner catch, rewrapped as `Error searching table <name>: <error>` (JS
stringification of an `Error` yields `Error: <message>`), and the top-level
catch prefixes `Error: `. -/
def searchErrText (table_name msg : String) : String :=
  "Error: Error searching table " ++ table_name ++ ": Error: " ++ msg

/-- Outcome of a search call that threw inside the try block. -/
def searchErrOutcome (table_name msg : String) (opened : Bool)
    (ecalls : List String) : SearchOutcome :=
  ⟨⟨searchErrText table_name msg, true⟩, opened, ecalls, [], false, none, none⟩

/-- The search handler from the point where the query vector is resolved:
locate the vector column, warn (only) on a dimension mismatch, issue the
similarity search, and strip the vector column from each result record
unless `with_vectors` was requested. -/
def searchAfterVector
    (storeSearch : Table → List Rat → DistanceType → Rat → Option String → List RecordT)
    (a : SearchArgs) (t : Table) (v : List Rat) (ecalls : List String) : SearchOutcome :=
  match findVectorField t with
  | none => searchErrOutcome a.table_name "No vector column found in the table" true ecalls
  | some f =>
    let warn := decide (v.length ≠ f.listSize)
    let results := storeSearch t v (a.distance_type.getD DistanceType.cosine)
      (a.limit.getD 10) a.whereFilter
    let processed :=
      if a.with_vectors.getD false then results
      else results.map fun item => item.filter fun kv => kv.1 != f.name
    ⟨⟨renderResults processed, false⟩, true, ecalls,
      [⟨v, a.distance_type.getD DistanceType.cosine, a.limit.getD 10, a.whereFilter⟩],
      warn, some f.name, some processed⟩

/-- The try block of `case "vector_search"` after validation: open the table,
resolve the search vector (a supplied `query_vector` wins; otherwise a
non-empty `query_text` is sent to the embedding collaborator; otherwise the
handler throws), then search.  `openResult` and `embed` are the external
collaborators, supplied as oracles. -/
def vectorSearchGo (openResult : Except String Table)
    (embed : String → Except String (List Rat))
    (storeSearch : Table → List Rat → DistanceType → Rat → Option String → List RecordT)
    (a : SearchArgs) : SearchOutcome :=
  match openResult with
  | Except.error e => searchErrOutcome a.table_name e true []
  | Except.ok t =>
    match a.query_vector with
    | some v => searchAfterVector storeSearch a t v []
    | none =>
      match a.query_text with
      | some qt =>
        if qt = "" then
          searchErrOutcome a.table_name
            "Either query_vector or query_text must be provided" true []
        else
          (match embed qt with
           | Except.ok v => searchAfterVector storeSearch a t v [qt]
           | Except.error e => searchErrOutcome a.table_name e true [qt])
      | none =>
        searchErrOutcome a.table_name
          "Either query_vector or query_text must be provided" true []

/-- The full `vector_search` tool call: validation first; a `safeParse`
failure throws `Invalid arguments for vector_search: ...`, which the
top-level catch converts into an error response without any collaborator
interaction. -/
def callVectorSearch (openResult : Except String Table)
    (embed : String → Except String (List Rat))
    (storeSearch : Table → List Rat → DistanceType → Rat → Option String → List RecordT)
    (j : Json) : SearchOutcome :=
  match parseVectorSearchArgs j with
  | Except.error e =>
    ⟨⟨"Error: Invalid arguments for vector_search: " ++ e, true⟩,
      false, [], [], false, none, none⟩
  | Except.ok a => vectorSearchGo openResult embed storeSearch a

/-- Modelled from the spec: a placeholder behaviour of the external store's
similarity search (ranking and filtering are owned by the store; the handler
treats the result rows opaquely). -/
def modelStoreSearch (t : Table) (_v : List Rat) (_dt : DistanceType)
    (_limit : Rat) (_w : Option String) : List RecordT :=
  t.rows

/-- `list_tables`: returns the stringified table names (for completeness). -/
def callListTables (db : Store) : Response :=
  ⟨renderJson (Json.arr ((db.map Prod.fst).map Json.str)), false⟩

/-! ### Concrete fixtures used by witnesses and counterexamples -/

/-- A record with a two-entry vector and one metadata field, as in the spec's
add-vectors example. -/
def exampleRecord : RecordT :=
  [("vector", Json.arr [Json.num 0.1, Json.num 0.2]), ("title", Json.str "a")]

/-- The spec's example call: `add-vectors("docs", [{vector:[0.1,0.2], title:"a"}])`. -/
def addExampleArgs : Json :=
  Json.obj [("table_name", Json.str "docs"), ("vectors", Json.arr [Json.obj exampleRecord])]

/-- A one-row demo record for the search fixtures. -/
def demoRecord : RecordT := [("vector", Json.arr [Json.num 1]), ("title", Json.str "a")]

/-- The vector column of `demoTable`. -/
def demoField : Field := ⟨"vector", 16, 12⟩

/-- A table whose vector column has dimension 12 and which holds `demoRecord`. -/
def demoTable : Table := ⟨[demoField], [demoRecord]⟩

/-- Validated search arguments carrying a direct query vector. -/
def demoSearchArgs : SearchArgs := ⟨"docs", some [1], none, none, none, none, none⟩

/-- Validated search arguments carrying only a (non-empty) text query. -/
def textSearchArgs : SearchArgs := ⟨"docs", none, some "hello", none, none, none, none⟩

/-- An embedding oracle that always answers with the vector `[1]`. -/
def embedConst : String → Except String (List Rat) := fun _ => Except.ok [1]

/-- An embedding oracle that always fails. -/
def embedFail : String → Except String (List Rat) :=
  fun _ => Except.error "embedding service unreachable"

/-! ### Helper lemmas -/

theorem isPrefixOf_self (l : List Char) : l.isPrefixOf l = true := by
  induction l with
  | nil => rfl
  | cons c cs ih => simp [List.isPrefixOf, ih]

theorem listContains_append_right (xs pat : List Char) :
    listContains (xs ++ pat) pat = true := by
  induction xs with
  | nil =>
    cases pat with
    | nil => rfl
    | cons p ps => simp [listContains, isPrefixOf_self]
  | cons x xs ih =>
    cases pat with
    | nil => rfl
    | cons p ps => simp [listContains] at ih ⊢; exact Or.inr ih

theorem toList_append (a b : String) : (a ++ b).toList = a.toList ++ b.toList := rfl

theorem containsSub_append_right (a b : String) : containsSub (a ++ b) b = true := by
  unfold containsSub
  rw [toList_append]
  exact listContains_append_right a.toList b.toList

theorem lookup_filter_self (name : String) (r : RecordT) :
    (r.filter fun kv => kv.1 != name).lookup name = none := by
  induction r with
  | nil => rfl
  | cons kv r ih =>
    obtain ⟨k1, v1⟩ := kv
    by_cases h : k1 = name
    · simp only [List.filter_cons]
      have hb : ((k1, v1).1 != name) = false := by simp [bne, h]
      rw [hb]
      exact ih
    · simp only [List.filter_cons]
      have hb : ((k1, v1).1 != name) = true := by simp [bne, h]
      rw [hb, if_pos rfl]
      have hk : (name == k1) = false := by
        simp [beq_eq_false_iff_ne]
        exact fun hc => h hc.symm
      simp [List.lookup, hk, ih]

theorem lookup_filter_ne (name k : String) (hk : k ≠ name) (r : RecordT) :
    (r.filter fun kv => kv.1 != name).lookup k = r.lookup k := by
  induction r with
  | nil => rfl
  | cons kv r ih =>
    obtain ⟨k1, v1⟩ := kv
    by_cases h : k1 = name
    · simp only [List.filter_cons]
      have hb : ((k1, v1).1 != name) = false := by simp [bne, h]
      rw [hb]
      have hkk : (k == k1) = false := by
        simp [beq_eq_false_iff_ne]
        intro hc; exact hk (hc.trans h)
      simp [List.lookup, hkk, ih]
    · simp only [List.filter_cons]
      have hb : ((k1, v1).1 != name) = true := by simp [bne, h]
      rw [hb, if_pos rfl]
      by_cases h2 : k = k1
      · simp [List.lookup, h2]
      · have hkk : (k == k1) = false := by simp [beq_eq_false_iff_ne, h2]
        simp [List.lookup, hkk, ih]

theorem parse_search_neither (o : RecordT)
    (hv : o.lookup "query_vector" = none) (ht : o.lookup "query_text" = none) :
    ∃ e, parseVectorSearchArgs (Json.obj o) = Except.error e := by
  have hqv : optNumArray o "query_vector" = Except.ok none := by
    simp [optNumArray, hv]
  have hqt : optString o "query_text" = Except.ok none := by
    simp [optString, ht]
  cases hTn : o.lookup "table_name" with
  | none => exact ⟨"table_name: Required", by simp [parseVectorSearchArgs, hTn]⟩
  | some j =>
    cases j with
    | str tn =>
      cases hL : optNumber o "limit" with
      | error e => exact ⟨e, by simp [parseVectorSearchArgs, hTn, hqv, hqt, hL]⟩
      | ok lim =>
        cases hD : optDistance o "distance_type" with
        | error e => exact ⟨e, by simp [parseVectorSearchArgs, hTn, hqv, hqt, hL, hD]⟩
        | ok dt =>
          cases hW : optString o "where" with
          | error e => exact ⟨e, by simp [parseVectorSearchArgs, hTn, hqv, hqt, hL, hD, hW]⟩
          | ok wh =>
            cases hB : optBool o "with_vectors" with
            | error e =>
              exact ⟨e, by simp [parseVectorSearchArgs, hTn, hqv, hqt, hL, hD, hW, hB]⟩
            | ok wv =>
              exact ⟨"Either query_vector or query_text must be provided",
                by simp [parseVectorSearchArgs, hTn, hqv, hqt, hL, hD, hW, hB]⟩
    | null => exact ⟨"table_name: Expected string", by simp [parseVectorSearchArgs, hTn]⟩
    | bool b => exact ⟨"table_name: Expected string", by simp [parseVectorSearchArgs, hTn]⟩
    | num q => exact ⟨"table_name: Expected string", by simp [parseVectorSearchArgs, hTn]⟩
    | arr xs => exact ⟨"table_name: Expected string", by simp [parseVectorSearchArgs, hTn]⟩
    | obj fs => exact ⟨"table_name: Expected string", by simp [parseVectorSearchArgs, hTn]⟩

/-! ### Claim theorems -/

/-- Claim C1: a valid `vector_add` call naming a missing table creates the
table from the submitted records and returns a success response; naming an
existing table it appends the records and returns a success response; and an
open error whose message does not contain "does not exist" propagates as a
handler-level failure (error-flagged response, store untouched) instead of
triggering table creation. -/
theorem vector_add_create_append_or_propagate (db : Store) (a : AddArgs) :
    (db.lookup a.table_name = none →
      (vectorAddHandler db a).2.isError = false ∧
      (vectorAddHandler db a).1.lookup a.table_name =
        some ⟨inferSchema a.vectors, a.vectors⟩) ∧
    (∀ t, db.lookup a.table_name = some t →
      (vectorAddHandler db a).2.isError = false ∧
      (vectorAddHandler db a).1.lookup a.table_name =
        some ⟨t.fields, t.rows ++ a.vectors⟩) ∧
    (∀ e, containsSub e "does not exist" = false →
      vectorAddWith db (Except.error e) a = (db, ⟨"Error: " ++ e, true⟩)) := by
  refine ⟨fun h => ?_, fun t h => ?_, fun e he => ?_⟩
  · have hopen : dbOpenTable db a.table_name =
        Except.error (("Table " ++ a.table_name ++ " ") ++ "does not exist") := by
      simp [dbOpenTable, h]
    have hc := containsSub_append_right ("Table " ++ a.table_name ++ " ") "does not exist"
    simp [vectorAddHandler, vectorAddWith, vectorAddGo, hopen, hc, storeSet,
      dbCreateTable, List.lookup]
  · have hopen : dbOpenTable db a.table_name = Except.ok t := by
      simp [dbOpenTable, h]
    simp [vectorAddHandler, vectorAddWith, vectorAddGo, hopen, storeSet, List.lookup]
  · simp [vectorAddWith, vectorAddGo, he]

/-- Witness for C1: adding one record to a missing table `docs` on the empty
store creates the table holding exactly that record. -/
theorem vector_add_create_append_or_propagate_witness :
    (vectorAddHandler [] ⟨"docs", [demoRecord]⟩).2.isError = false ∧
    (vectorAddHandler [] ⟨"docs", [demoRecord]⟩).1.lookup "docs" =
      some ⟨inferSchema [demoRecord], [demoRecord]⟩ :=
  (vector_add_create_append_or_propagate [] ⟨"docs", [demoRecord]⟩).1 rfl

/-- Claim C8 counterexample: the spec's example `add-vectors("docs",
[{vector:[0.1,0.2], title:"a"}])` on the empty store goes through the
create-table branch, whose response text is
"Created table docs and added 1 vectors" and does not mention
"Added 1 vectors to table docs". -/
theorem add_example_message_counterexample :
    (callVectorAdd [] addExampleArgs).2.text = "Created table docs and added 1 vectors" ∧
    containsSub (callVectorAdd [] addExampleArgs).2.text
      "Added 1 vectors to table docs" = false :=
  ⟨rfl, rfl⟩

/-- Claim C8 (amended): the spec's example call on the empty store creates
table `docs` holding exactly the submitted record, and the success response
text is "Created table docs and added 1 vectors". -/
theorem add_example_on_empty_store :
    (callVectorAdd [] addExampleArgs).2 =
      ⟨"Created table docs and added 1 vectors", false⟩ ∧
    (callVectorAdd [] addExampleArgs).1.lookup "docs" =
      some ⟨[⟨"vector", 16, 2⟩, ⟨"title", 3, 0⟩], [exampleRecord]⟩ :=
  ⟨rfl, rfl⟩

/-- Claim C10: an empty `vectors` array passes validation (no non-emptiness
constraint), and on an existing table the handler reports
"Added 0 vectors to table ..." with the table's contents unchanged. -/
theorem vector_add_empty_vectors_ok (o : RecordT) (tn : String) (db : Store) (t : Table)
    (h1 : o.lookup "table_name" = some (Json.str tn))
    (h2 : o.lookup "vectors" = some (Json.arr []))
    (h3 : db.lookup tn = some t) :
    parseVectorAddArgs (Json.obj o) = Except.ok ⟨tn, []⟩ ∧
    (callVectorAdd db (Json.obj o)).2 = ⟨"Added 0 vectors to table " ++ tn, false⟩ ∧
    (callVectorAdd db (Json.obj o)).1.lookup tn = some t := by
  have hp : parseVectorAddArgs (Json.obj o) = Except.ok ⟨tn, []⟩ := by
    simp [parseVectorAddArgs, h1, h2, parseRecords]
  have hopen : dbOpenTable db tn = Except.ok t := by simp [dbOpenTable, h3]
  refine ⟨hp, ?_, ?_⟩
  · simp only [callVectorAdd, hp, vectorAddHandler, vectorAddWith, vectorAddGo, hopen]
    rfl
  · simp [callVectorAdd, hp, vectorAddHandler, vectorAddWith, vectorAddGo, hopen,
      storeSet, List.lookup]

/-- Witness for C10: adding zero vectors to the existing table `docs`. -/
theorem vector_add_empty_vectors_ok_witness :
    parseVectorAddArgs (Json.obj [("table_name", Json.str "docs"),
      ("vectors", Json.arr [])]) = Except.ok ⟨"docs", []⟩ ∧
    (callVectorAdd [("docs", demoTable)] (Json.obj [("table_name", Json.str "docs"),
      ("vectors", Json.arr [])])).2 = ⟨"Added 0 vectors to table " ++ "docs", false⟩ ∧
    (callVectorAdd [("docs", demoTable)] (Json.obj [("table_name", Json.str "docs"),
      ("vectors", Json.arr [])])).1.lookup "docs" = some demoTable :=
  vector_add_empty_vectors_ok [("table_name", Json.str "docs"), ("vectors", Json.arr [])]
    "docs" [("docs", demoTable)] demoTable rfl rfl rfl

/-- Claim C2: with `with_vectors` false or omitted, every result record is the
store's record with the table's vector field removed (lookup of the vector
field yields nothing and every other field is unchanged); with
`with_vectors=true` the store's records are returned untouched, so the vector
field is kept wherever the store returned it. -/
theorem vector_search_strips_vector_field
    (ss : Table → List Rat → DistanceType → Rat → Option String → List RecordT)
    (a : SearchArgs) (t : Table) (v : List Rat) (ecalls : List String) (f : Field)
    (hf : findVectorField t = some f) :
    (searchAfterVector ss a t v ecalls).response.isError = false ∧
    (a.with_vectors.getD false = false →
      (searchAfterVector ss a t v ecalls).processedResults =
        some ((ss t v (a.distance_type.getD DistanceType.cosine) (a.limit.getD 10)
          a.whereFilter).map fun item => item.filter fun kv => kv.1 != f.name)) ∧
    (∀ item : RecordT,
      (item.filter fun kv => kv.1 != f.name).lookup f.name = none ∧
      ∀ k, k ≠ f.name → (item.filter fun kv => kv.1 != f.name).lookup k = item.lookup k) ∧
    (a.with_vectors.getD false = true →
      (searchAfterVector ss a t v ecalls).processedResults =
        some (ss t v (a.distance_type.getD DistanceType.cosine) (a.limit.getD 10)
          a.whereFilter)) := by
  refine ⟨?_, fun hw => ?_, fun item => ?_, fun hw => ?_⟩
  · simp [searchAfterVector, hf]
  · simp [searchAfterVector, hf, hw]
  · exact ⟨lookup_filter_self f.name item, fun k hk => lookup_filter_ne f.name k hk item⟩
  · simp [searchAfterVector, hf, hw]

/-- Witness for C2: searching `demoTable` with `with_vectors` omitted strips
the `vector` field and keeps `title`. -/
theorem vector_search_strips_vector_field_witness :
    (searchAfterVector modelStoreSearch demoSearchArgs demoTable [1] []).processedResults =
      some [[("title", Json.str "a")]] ∧
    (demoRecord.filter fun kv => kv.1 != demoField.name).lookup "vector" = none ∧
    (demoRecord.filter fun kv => kv.1 != demoField.name).lookup "title" =
      demoRecord.lookup "title" := by
  have h := vector_search_strips_vector_field modelStoreSearch demoSearchArgs demoTable
    [1] [] demoField rfl
  refine ⟨?_, (h.2.2.1 demoRecord).1, (h.2.2.1 demoRecord).2 "title" (by decide)⟩
  rw [h.2.1 rfl]
  rfl

/-- Claim C3: a `vector_search` call supplying neither `query_vector` nor
`query_text` fails validation; the handler answers with the validation error
and performs no store operation (no table open, no search) and no embedding
call. -/
theorem vector_search_neither_query_validation
    (openR : Except String Table) (embed : String → Except String (List Rat))
    (ss : Table → List Rat → DistanceType → Rat → Option String → List RecordT)
    (o : RecordT)
    (hv : o.lookup "query_vector" = none) (ht : o.lookup "query_text" = none) :
    (∃ e, parseVectorSearchArgs (Json.obj o) = Except.error e) ∧
    (callVectorSearch openR embed ss (Json.obj o)).response.isError = true ∧
    (callVectorSearch openR embed ss (Json.obj o)).tableOpened = false ∧
    (callVectorSearch openR embed ss (Json.obj o)).embedCalls = [] ∧
    (callVectorSearch openR embed ss (Json.obj o)).searchCalls = [] := by
  obtain ⟨e, he⟩ := parse_search_neither o hv ht
  exact ⟨⟨e, he⟩, by simp [callVectorSearch, he], by simp [callVectorSearch, he],
    by simp [callVectorSearch, he], by simp [callVectorSearch, he]⟩

/-- Witness for C3: a call with only a table name is rejected before any
collaborator interaction. -/
theorem vector_search_neither_query_validation_witness :
    (∃ e, parseVectorSearchArgs (Json.obj [("table_name", Json.str "docs")]) =
      Except.error e) ∧
    (callVectorSearch (Except.ok demoTable) embedConst modelStoreSearch
      (Json.obj [("table_name", Json.str "docs")])).response.isError = true ∧
    (callVectorSearch (Except.ok demoTable) embedConst modelStoreSearch
      (Json.obj [("table_name", Json.str "docs")])).tableOpened = false ∧
    (callVectorSearch (Except.ok demoTable) embedConst modelStoreSearch
      (Json.obj [("table_name", Json.str "docs")])).embedCalls = [] ∧
    (callVectorSearch (Except.ok demoTable) embedConst modelStoreSearch
      (Json.obj [("table_name", Json.str "docs")])).searchCalls = [] :=
  vector_search_neither_query_validation (Except.ok demoTable) embedConst modelStoreSearch
    [("table_name", Json.str "docs")] rfl rfl

/-- Claim C4 counterexample: a call supplying `query_text = ""` (and no
`query_vector`) passes validation, yet the embedding collaborator is invoked
zero times — not exactly once — because the handler's truthiness test on
`query_text` fails and it throws instead. -/
theorem vector_search_empty_text_no_embed :
    parseVectorSearchArgs (Json.obj [("table_name", Json.str "docs"),
      ("query_text", Json.str "")]) =
      Except.ok ⟨"docs", none, some "", none, none, none, none⟩ ∧
    (callVectorSearch (Except.ok demoTable) embedConst modelStoreSearch
      (Json.obj [("table_name", Json.str "docs"),
        ("query_text", Json.str "")])).embedCalls = [] ∧
    (callVectorSearch (Except.ok demoTable) embedConst modelStoreSearch
      (Json.obj [("table_name", Json.str "docs"),
        ("query_text", Json.str "")])).response.isError = true :=
  ⟨rfl, rfl, rfl⟩

/-- Claim C4 (amended): when `query_vector` is absent and `query_text` is a
non-empty string whose embedding succeeds, the embedding collaborator is
invoked exactly once on that text, and whenever the similarity search is
issued its vector is exactly (element-for-element) the embedding's output. -/
theorem vector_search_embedding_once
    (t : Table) (embed : String → Except String (List Rat))
    (ss : Table → List Rat → DistanceType → Rat → Option String → List RecordT)
    (a : SearchArgs) (qt : String) (v : List Rat)
    (hqv : a.query_vector = none) (hqt : a.query_text = some qt) (hne : qt ≠ "")
    (hembed : embed qt = Except.ok v) :
    (vectorSearchGo (Except.ok t) embed ss a).embedCalls = [qt] ∧
    (∀ f, findVectorField t = some f →
      (vectorSearchGo (Except.ok t) embed ss a).searchCalls =
        [⟨v, a.distance_type.getD DistanceType.cosine, a.limit.getD 10,
          a.whereFilter⟩]) := by
  constructor
  · cases hff : findVectorField t with
    | none => simp [vectorSearchGo, hqv, hqt, hne, hembed, searchAfterVector, hff,
        searchErrOutcome]
    | some f => simp [vectorSearchGo, hqv, hqt, hne, hembed, searchAfterVector, hff]
  · intro f hff
    simp [vectorSearchGo, hqv, hqt, hne, hembed, searchAfterVector, hff]

/-- Witness for C4 (amended): text query "hello" is embedded once and the
embedding `[1]` is the searched vector. -/
theorem vector_search_embedding_once_witness :
    (vectorSearchGo (Except.ok demoTable) embedConst modelStoreSearch
      textSearchArgs).embedCalls = ["hello"] ∧
    (vectorSearchGo (Except.ok demoTable) embedConst modelStoreSearch
      textSearchArgs).searchCalls = [⟨[1], DistanceType.cosine, 10, none⟩] := by
  have h := vector_search_embedding_once demoTable embedConst modelStoreSearch
    textSearchArgs "hello" [1] rfl rfl (by decide) rfl
  exact ⟨h.1, h.2 demoField rfl⟩

/-- Claim C5 counterexample: a call supplying both `query_vector` and
`query_text` passes `VectorSearchArgsSchema` validation — the `.refine` only
requires at least one of them, it does not reject both. -/
theorem vector_search_both_accepted :
    parseVectorSearchArgs (Json.obj [("table_name", Json.str "docs"),
      ("query_vector", Json.arr [Json.num 1]), ("query_text", Json.str "hi")]) =
      Except.ok ⟨"docs", some [1], some "hi", none, none, none, none⟩ :=
  rfl

/-- Claim C5 (amended): the validator rejects calls that supply neither
`query_vector` nor `query_text`, but does not reject calls that supply both:
there are calls supplying both that validate successfully. -/
theorem vector_search_at_least_one_refine :
    (∀ o : RecordT, o.lookup "query_vector" = none → o.lookup "query_text" = none →
      ∃ e, parseVectorSearchArgs (Json.obj o) = Except.error e) ∧
    (∃ j a, parseVectorSearchArgs j = Except.ok a ∧
      a.query_vector.isSome = true ∧ a.query_text.isSome = true) := by
  refine ⟨fun o hv ht => parse_search_neither o hv ht, ?_⟩
  exact ⟨Json.obj [("table_name", Json.str "docs"),
      ("query_vector", Json.arr [Json.num 1]), ("query_text", Json.str "hi")],
    ⟨"docs", some [1], some "hi", none, none, none, none⟩, rfl, rfl, rfl⟩

/-- Witness for C5 (amended): the neither-supplied rejection at a concrete
call. -/
theorem vector_search_at_least_one_refine_witness :
    ∃ e, parseVectorSearchArgs (Json.obj [("table_name", Json.str "d")]) =
      Except.error e :=
  vector_search_at_least_one_refine.1 [("table_name", Json.str "d")] rfl rfl

/-- Claim C6: a resolved query vector whose length differs from the table's
configured vector dimension only sets the warning; the similarity search is
still issued and the response is not an error. -/
theorem vector_search_dim_mismatch_warns
    (embed : String → Except String (List Rat))
    (ss : Table → List Rat → DistanceType → Rat → Option String → List RecordT)
    (a : SearchArgs) (t : Table) (v : List Rat) (f : Field)
    (hqv : a.query_vector = some v) (hf : findVectorField t = some f)
    (hdim : v.length ≠ f.listSize) :
    (vectorSearchGo (Except.ok t) embed ss a).dimWarning = true ∧
    (vectorSearchGo (Except.ok t) embed ss a).searchCalls =
      [⟨v, a.distance_type.getD DistanceType.cosine, a.limit.getD 10, a.whereFilter⟩] ∧
    (vectorSearchGo (Except.ok t) embed ss a).response.isError = false := by
  refine ⟨?_, ?_, ?_⟩ <;> simp [vectorSearchGo, hqv, searchAfterVector, hf, hdim]

/-- Witness for C6: a 1-dimensional query against the 12-dimensional
`demoTable` warns but still searches and succeeds. -/
theorem vector_search_dim_mismatch_warns_witness :
    (vectorSearchGo (Except.ok demoTable) embedConst modelStoreSearch
      demoSearchArgs).dimWarning = true ∧
    (vectorSearchGo (Except.ok demoTable) embedConst modelStoreSearch
      demoSearchArgs).searchCalls = [⟨[1], DistanceType.cosine, 10, none⟩] ∧
    (vectorSearchGo (Except.ok demoTable) embedConst modelStoreSearch
      demoSearchArgs).response.isError = false :=
  vector_search_dim_mismatch_warns embedConst modelStoreSearch demoSearchArgs demoTable
    [1] demoField rfl rfl (by decide)

/-- Claim C7 counterexample: a store error on `vector_add`'s open (message not
containing "does not exist") is surfaced as `Error: <message>` with no
context naming the operation or the table — for table "docs" the text
contains neither "docs" nor "add". -/
theorem vector_add_error_lacks_context :
    containsSub "boom failure" "does not exist" = false ∧
    (vectorAddWith [] (Except.error "boom failure") ⟨"docs", []⟩).2 =
      ⟨"Error: boom failure", true⟩ ∧
    containsSub (vectorAddWith [] (Except.error "boom failure") ⟨"docs", []⟩).2.text
      "docs" = false ∧
    containsSub (vectorAddWith [] (Except.error "boom failure") ⟨"docs", []⟩).2.text
      "add" = false :=
  ⟨rfl, rfl, rfl, rfl⟩

/-- Claim C7 (amended): every store or embedding error inside a handler (other
than the recovered table-not-found case on add) yields an error-flagged
response carrying the error message and the process-level handler returns
normally; on the search path the message is wrapped as
`Error searching table <name>: ...` (naming operation and table), while on
the add path the raw message is surfaced with only an `Error: ` prefix. -/
theorem handler_errors_surfaced
    (db : Store) (a : AddArgs) (sa : SearchArgs) (t : Table)
    (embed : String → Except String (List Rat))
    (ss : Table → List Rat → DistanceType → Rat → Option String → List RecordT)
    (e et qt : String) :
    (containsSub e "does not exist" = false →
      vectorAddWith db (Except.error e) a = (db, ⟨"Error: " ++ e, true⟩)) ∧
    ((vectorSearchGo (Except.error e) embed ss sa).response =
      ⟨searchErrText sa.table_name e, true⟩) ∧
    (sa.query_vector = none → sa.query_text = some qt → qt ≠ "" →
      embed qt = Except.error et →
      (vectorSearchGo (Except.ok t) embed ss sa).response =
        ⟨searchErrText sa.table_name et, true⟩) := by
  refine ⟨fun he => ?_, ?_, fun h1 h2 h3 h4 => ?_⟩
  · simp [vectorAddWith, vectorAddGo, he]
  · simp [vectorSearchGo, searchErrOutcome]
  · simp [vectorSearchGo, h1, h2, h3, h4, searchErrOutcome]

/-- Witness for C7 (amended): a concrete open error on add and on search, and
a concrete embedding failure. -/
theorem handler_errors_surfaced_witness :
    containsSub "boom failure" "does not exist" = false ∧
    vectorAddWith [] (Except.error "boom failure") ⟨"docs", []⟩ =
      ([], ⟨"Error: " ++ "boom failure", true⟩) ∧
    (vectorSearchGo (Except.error "boom failure") embedFail modelStoreSearch
      textSearchArgs).response = ⟨searchErrText "docs" "boom failure", true⟩ ∧
    (vectorSearchGo (Except.ok demoTable) embedFail modelStoreSearch
      textSearchArgs).response =
      ⟨searchErrText "docs" "embedding service unreachable", true⟩ := by
  have h := handler_errors_surfaced [] ⟨"docs", []⟩ textSearchArgs demoTable embedFail
    modelStoreSearch "boom failure" "embedding service unreachable" "hello"
  exact ⟨rfl, h.1 rfl, h.2.1, h.2.2 rfl rfl (by decide) rfl⟩

/-- Claim C9: when no schema field has type tag 16 with list size strictly
above 10 — in particular when the only vector column has dimension at most
10 — the search handler fails with a response containing
"No vector column found in the table" and never issues the similarity
search. -/
theorem vector_search_no_vector_column
    (embed : String → Except String (List Rat))
    (ss : Table → List Rat → DistanceType → Rat → Option String → List RecordT)
    (a : SearchArgs) (t : Table) (v : List Rat)
    (hqv : a.query_vector = some v)
    (hfields : ∀ f ∈ t.fields, ¬(f.typeId = 16 ∧ 10 < f.listSize)) :
    (vectorSearchGo (Except.ok t) embed ss a).response.isError = true ∧
    containsSub (vectorSearchGo (Except.ok t) embed ss a).response.text
      "No vector column found in the table" = true ∧
    (vectorSearchGo (Except.ok t) embed ss a).searchCalls = [] := by
  have hff : findVectorField t = none := by
    unfold findVectorField
    rw [List.find?_eq_none]
    intro f hfmem hpf
    simp only [Bool.and_eq_true, beq_iff_eq, decide_eq_true_eq] at hpf
    exact hfields f hfmem hpf
  refine ⟨?_, ?_, ?_⟩
  · simp [vectorSearchGo, hqv, searchAfterVector, hff, searchErrOutcome]
  · simp only [vectorSearchGo, hqv, searchAfterVector, hff, searchErrOutcome]
    exact containsSub_append_right
      (("Error: Error searching table " ++ a.table_name) ++ ": Error: ")
      "No vector column found in the table"
  · simp [vectorSearchGo, hqv, searchAfterVector, hff, searchErrOutcome]

/-- Witness for C9: a table whose only vector column has dimension 2 (at most
10) makes the search fail with "No vector column found in the table". -/
theorem vector_search_no_vector_column_witness :
    (vectorSearchGo (Except.ok ⟨[⟨"vector", 16, 2⟩], [exampleRecord]⟩) embedConst
      modelStoreSearch demoSearchArgs).response.isError = true ∧
    containsSub (vectorSearchGo (Except.ok ⟨[⟨"vector", 16, 2⟩], [exampleRecord]⟩)
      embedConst modelStoreSearch demoSearchArgs).response.text
      "No vector column found in the table" = true ∧
    (vectorSearchGo (Except.ok ⟨[⟨"vector", 16, 2⟩], [exampleRecord]⟩) embedConst
      modelStoreSearch demoSearchArgs).searchCalls = [] :=
  vector_search_no_vector_column embedConst modelStoreSearch demoSearchArgs
    ⟨[⟨"vector", 16, 2⟩], [exampleRecord]⟩ [1] rfl (by decide)

end LanceMcp
